import Mathlib

/-!
Shallow embedding of the PSX KSE-100 elite scanner core (`src/app.py`):
the RSI indicator (`calculate_rsi`), the signal evaluator
(`analyze_elite_signal`), the scan loop (`run_kse100_scan`) and the
confidence sort performed in `main`.

Prices and volumes are modelled as exact rationals.  The source works on
IEEE doubles; the two special values its unguarded arithmetic can create
are modelled explicitly: `calculate_rsi` returns `Option ℚ`, where `none`
stands for the NaN produced by the pandas division `0.0 / 0.0` (flat
rolling window), while the `+inf` arising from `x / 0.0` with `x > 0`
is folded into its propagated end value `RSI = 100 - 100/(1 + inf) = 100`.
Python's `round(x, n)` is modelled as decimal rounding on ℚ (`roundTo`);
no claim below depends on a rounding tie.
-/

/-- One end-of-day bar, as assembled by `fetch_eod_data` (`src/app.py`
lines 154-163).  The `symbol` and `data_points` entries of the source
dict are carried separately / unused by the evaluator and are omitted.
The field `open_` models the dict key `open` (a Lean keyword). -/
structure EodData where
  close : ℚ
  volume : ℚ
  high : ℚ
  low : ℚ
  open_ : ℚ
  date : String
deriving DecidableEq

/-- The strategy parameter bundle `self.strategy_params`
(`src/app.py` lines 22-28). -/
structure StrategyParams where
  rsi_oversold : ℚ
  volume_surge : ℚ
  min_confidence : ℚ
  target_gain : ℚ
  stop_loss : ℚ
deriving DecidableEq

/-- The default strategy parameters set in `PSXKSE100Scanner.__init__`. -/
def strategy_params : StrategyParams :=
  { rsi_oversold := 26, volume_surge := 5/2, min_confidence := 7,
    target_gain := 28/10, stop_loss := 8/10 }

/-- The signal record returned by `analyze_elite_signal`
(`src/app.py` lines 243-254). -/
structure Signal where
  symbol : String
  price : ℚ
  rsi : ℚ
  volume_ratio : ℚ
  confidence : ℚ
  target : ℚ
  stop_loss : ℚ
  signal : String
  reason : String
  date : String
deriving DecidableEq

/-- Python's `round(q, digits)` modelled as decimal rounding on ℚ. -/
def roundTo (digits : ℕ) (q : ℚ) : ℚ :=
  ((round (q * 10 ^ digits) : ℤ) : ℚ) / 10 ^ digits

/-- `np.diff(closes)`: successive differences, element `i` is
`closes[i+1] - closes[i]`; length is one less than the input. -/
def rsi_deltas (closes : List ℚ) : List ℚ :=
  List.zipWith (fun next prev => next - prev) closes.tail closes

/-- `np.where(deltas > 0, deltas, 0)` (`src/app.py` line 174). -/
def gains_of (deltas : List ℚ) : List ℚ :=
  deltas.map (fun d => if 0 < d then d else 0)

/-- `np.where(deltas < 0, -deltas, 0)` (`src/app.py` line 175). -/
def losses_of (deltas : List ℚ) : List ℚ :=
  deltas.map (fun d => if d < 0 then -d else 0)

/-- `pd.Series(xs).rolling(window=window).mean().iloc[-1]`: the
arithmetic mean of the last `window` entries of `xs` (the earlier,
partially-filled windows are NaN in pandas and are discarded by
`iloc[-1]`; the caller guarantees `window ≤ xs.length`). -/
def rollingMeanLast (window : ℕ) (xs : List ℚ) : ℚ :=
  (xs.drop (xs.length - window)).sum / (window : ℚ)

/-- `avg_gains.iloc[-1]` of `calculate_rsi` (`src/app.py` line 177). -/
def avg_gains (closes : List ℚ) (window : ℕ) : ℚ :=
  rollingMeanLast window (gains_of (rsi_deltas closes))

/-- `avg_losses.iloc[-1]` of `calculate_rsi` (`src/app.py` line 178). -/
def avg_losses (closes : List ℚ) (window : ℕ) : ℚ :=
  rollingMeanLast window (losses_of (rsi_deltas closes))

/-- `calculate_rsi` (`src/app.py` lines 168-183).  Fewer than
`window + 1` closes return the neutral default 50.  Otherwise
`rs = avg_gains / avg_losses` and `rsi = 100 - 100 / (1 + rs)` are
evaluated with IEEE semantics: a positive average loss gives the
ordinary finite value; a zero average loss with a positive average gain
gives `rs = +inf`, hence `rsi = 100`; a zero average loss with a zero
average gain gives `rs = NaN`, hence `rsi = NaN`, modelled as `none`. -/
def calculate_rsi (closes : List ℚ) (window : ℕ) : Option ℚ :=
  if closes.length < window + 1 then some 50
  else if 0 < avg_losses closes window then
    some (100 - 100 / (1 + avg_gains closes window / avg_losses closes window))
  else if 0 < avg_gains closes window then some 100
  else none

/-- The volume-ratio expression of `analyze_elite_signal`
(`src/app.py` line 222): `volume / base_vol if base_vol > 0 and
volume > 0 else 1`. -/
def volume_ratio (volume base_vol : ℚ) : ℚ :=
  if 0 < base_vol ∧ 0 < volume then volume / base_vol else 1

/-- `bullish_candle` (`src/app.py` line 224): `close > open`. -/
abbrev bullish_candle (eod : EodData) : Prop :=
  eod.open_ < eod.close

/-- `price_strength` (`src/app.py` lines 226-227):
`(close - low) / daily_range if daily_range > 0 else 0.5`. -/
def price_strength (eod : EodData) : ℚ :=
  let daily_range := eod.high - eod.low
  if 0 < daily_range then (eod.close - eod.low) / daily_range else 1/2

/-- The unclamped confidence expression of `analyze_elite_signal`
(`src/app.py` lines 234-236):
`6.0 + (rsi_factor * 2.5) + (volume_factor - 1) + 0.8` with
`rsi_factor = (rsi_oversold - rsi) / 8` and
`volume_factor = min(volume_ratio / 2.0, 2.5)`. -/
def confidence_raw (params : StrategyParams) (rsi vr : ℚ) : ℚ :=
  let rsi_factor := (params.rsi_oversold - rsi) / 8
  let volume_factor := min (vr / 2) (5/2)
  6 + rsi_factor * (5/2) + (volume_factor - 1) + 8/10

/-- The clamped confidence, `min(max(confidence, 0), 10)`
(`src/app.py` line 237). -/
def confidence_score (params : StrategyParams) (rsi vr : ℚ) : ℚ :=
  min (max (confidence_raw params rsi vr) 0) 10

/-- `symbol.replace('.KAR', '')` as used when building the signal record. -/
def strip_kar (s : String) : String :=
  s.replace ".KAR" ""

/-- The reason string of the signal record,
`f-string 'Oversold bounce (RSI: ..., Volume: ...x)'`; the `%.1f`
float formatting is modelled as decimal rounding. -/
def reason_text (rsi vr : ℚ) : String :=
  "Oversold bounce (RSI: " ++ toString (roundTo 1 rsi) ++ ", Volume: "
    ++ toString (roundTo 1 vr) ++ "x)"

/-- `analyze_elite_signal` (`src/app.py` lines 208-258).  The two
provider calls (`fetch_eod_data`, `fetch_historical_data`) are network
I/O and enter here as the already-fetched `Option` inputs; `None` and
empty/short histories follow the source's falsiness checks.  A NaN RSI
makes the first gate comparison `rsi < rsi_oversold` false in the
source, so the `none` RSI case is discharged up front; a NaN RSI never
reaches a signal record.  The bare `except: return None` of the source
has no remaining effect: every arithmetic step below is total. -/
def analyze_elite_signal (params : StrategyParams) (base_volumes_fn : String → ℚ)
    (symbol : String) (eod_data : Option EodData)
    (historical_closes : Option (List ℚ)) : Option Signal :=
  match eod_data with
  | none => none
  | some eod =>
    if eod.close ≤ 0 then none else
    match historical_closes with
    | none => none
    | some closes =>
      if closes.length < 15 then none else
      match calculate_rsi closes 14 with
      | none => none
      | some rsi =>
        let base_vol := base_volumes_fn symbol
        let vr := volume_ratio eod.volume base_vol
        if rsi < params.rsi_oversold ∧ params.volume_surge < vr ∧
            bullish_candle eod ∧ 3/5 < price_strength eod then
          let confidence := confidence_score params rsi vr
          if params.min_confidence ≤ confidence then
            some { symbol := strip_kar symbol,
                   price := eod.close,
                   rsi := roundTo 1 rsi,
                   volume_ratio := roundTo 1 vr,
                   confidence := roundTo 1 confidence,
                   target := roundTo 2 (eod.close * (1 + params.target_gain / 100)),
                   stop_loss := roundTo 2 (eod.close * (1 - params.stop_loss / 100)),
                   signal := "ELITE_BUY",
                   reason := reason_text rsi vr,
                   date := eod.date }
          else none
        else none

/-- One iteration of the scan loop (`src/app.py` lines 272-284): a
non-`None` evaluation is appended to `signals` and counted as
`successful_scans`, a `None` evaluation is counted as `failed_scans` —
whatever its cause.  The accumulator is `(signals, successful, failed)`. -/
def scan_step (params : StrategyParams) (base_volumes_fn : String → ℚ)
    (provider : String → Option EodData × Option (List ℚ))
    (acc : List Signal × ℕ × ℕ) (symbol : String) : List Signal × ℕ × ℕ :=
  match analyze_elite_signal params base_volumes_fn symbol
      (provider symbol).1 (provider symbol).2 with
  | some s => (acc.1 ++ [s], acc.2.1 + 1, acc.2.2)
  | none => (acc.1, acc.2.1, acc.2.2 + 1)

/-- `run_kse100_scan` (`src/app.py` lines 260-286) over an explicit
symbol universe and data provider; returns
`(signals, successful_scans, failed_scans)`. -/
def run_kse100_scan (params : StrategyParams) (base_volumes_fn : String → ℚ)
    (provider : String → Option EodData × Option (List ℚ))
    (symbols : List String) : List Signal × ℕ × ℕ :=
  symbols.foldl (scan_step params base_volumes_fn provider) ([], 0, 0)

/-- The curated symbol universe `self.kse_100_symbols`
(`src/app.py` lines 32-68). -/
def kse_100_symbols : List String :=
  ["HBL.KAR", "UBL.KAR", "MCB.KAR", "BAHL.KAR", "BAFL.KAR",
   "BOP.KAR", "JSBL.KAR", "MEBL.KAR", "SNBL.KAR",
   "OGDC.KAR", "PPL.KAR", "POL.KAR", "PSO.KAR", "SNGP.KAR",
   "ATRL.KAR", "HASCOL.KAR",
   "LUCK.KAR", "DGKC.KAR", "MLCF.KAR", "FCCL.KAR", "PIOC.KAR",
   "POWER.KAR", "KOHAT.KAR",
   "EFERT.KAR", "FFC.KAR", "FFL.KAR", "FATIMA.KAR",
   "HUBC.KAR", "KAPCO.KAR", "KEL.KAR",
   "TRG.KAR", "SYS.KAR", "NETSOL.KAR",
   "NESTLE.KAR", "COLG.KAR", "UPFL.KAR", "GLAXO.KAR",
   "EPCL.KAR", "LOTCHEM.KAR",
   "EFUG.KAR", "AGIL.KAR",
   "NCL.KAR", "SILK.KAR",
   "ISL.KAR", "DAWH.KAR", "SEARL.KAR", "AVN.KAR"]

/-- The baseline-volume table `self.base_volumes`
(`src/app.py` lines 70-114), without the `'DEFAULT'` entry, which is
the fallback of the lookup below. -/
def base_volumes_table : List (String × ℚ) :=
  [("HBL.KAR", 50000), ("UBL.KAR", 45000), ("MCB.KAR", 30000),
   ("BAHL.KAR", 25000), ("BAFL.KAR", 35000), ("BOP.KAR", 40000),
   ("JSBL.KAR", 15000), ("MEBL.KAR", 30000), ("SNBL.KAR", 20000),
   ("OGDC.KAR", 48000), ("PPL.KAR", 52000), ("POL.KAR", 45000),
   ("PSO.KAR", 55000), ("SNGP.KAR", 38000), ("ATRL.KAR", 35000),
   ("HASCOL.KAR", 45000),
   ("LUCK.KAR", 35000), ("DGKC.KAR", 30000), ("MLCF.KAR", 32000),
   ("FCCL.KAR", 28000), ("PIOC.KAR", 18000), ("POWER.KAR", 25000),
   ("KOHAT.KAR", 20000),
   ("EFERT.KAR", 40000), ("FFC.KAR", 42000), ("FFL.KAR", 38000),
   ("FATIMA.KAR", 30000),
   ("HUBC.KAR", 40000), ("KAPCO.KAR", 35000), ("KEL.KAR", 30000),
   ("TRG.KAR", 52000), ("SYS.KAR", 38000), ("NETSOL.KAR", 12000),
   ("NESTLE.KAR", 15000), ("COLG.KAR", 8000), ("UPFL.KAR", 12000),
   ("GLAXO.KAR", 15000),
   ("EPCL.KAR", 25000), ("LOTCHEM.KAR", 28000),
   ("EFUG.KAR", 22000), ("AGIL.KAR", 12000),
   ("NCL.KAR", 22000), ("SILK.KAR", 8000),
   ("ISL.KAR", 32000), ("DAWH.KAR", 25000), ("SEARL.KAR", 18000),
   ("AVN.KAR", 8000)]

/-- `self.base_volumes.get(symbol, self.base_volumes['DEFAULT'])`
(`src/app.py` line 221), with `'DEFAULT'` mapped to 25000. -/
def base_volumes (symbol : String) : ℚ :=
  ((base_volumes_table.find? (fun p => p.1 == symbol)).map Prod.snd).getD 25000

/-- Stable insertion, descending by confidence: the inserted, earlier-
encountered signal goes before any later signal of equal confidence. -/
def insert_by_confidence (s : Signal) : List Signal → List Signal
  | [] => [s]
  | t :: ts =>
    if t.confidence ≤ s.confidence then s :: t :: ts
    else t :: insert_by_confidence s ts

/-- `signals.sort(key=lambda x: x['confidence'], reverse=True)`
(`src/app.py` line 333).  Python's sort is stable; this insertion sort
is stable for the same key and descending order, and a stable sort of a
list under a fixed total preorder key is unique, so the two agree. -/
def sortSignals : List Signal → List Signal
  | [] => []
  | x :: xs => insert_by_confidence x (sortSignals xs)

/-- The full-universe scan of `main` (`src/app.py` lines 326-333):
run the curated scan, then sort the emitted signals by confidence
descending. -/
def elite_scan_output (provider : String → Option EodData × Option (List ℚ)) :
    List Signal :=
  sortSignals (run_kse100_scan strategy_params base_volumes provider
    kse_100_symbols).1

/-- Scenario-A bar of the spec: `{open:100, close:103, high:104,
low:99, volume:150000}`. -/
def barA : EodData :=
  { close := 103, volume := 150000, high := 104, low := 99,
    open_ := 100, date := "2024-01-02" }

/-- A 15-element close history whose last 14 differences have gains
summing to 1 and losses summing to 4, so `rs = 1/4` and RSI is exactly
20 (the spec's "RSI ≈ 20" history). -/
def histA : List ℚ :=
  [107, 106, 105, 104, 103, 104, 104, 104, 104, 104, 104, 104, 104, 104, 104]

/-- A usable bearish bar: positive close, full history will be
supplied, but `close < open`, so no signal is emitted. -/
def barBear : EodData :=
  { close := 98, volume := 150000, high := 101, low := 97,
    open_ := 100, date := "2024-01-02" }

/-- A bar with `close = 0`, i.e. unusable data. -/
def barZero : EodData :=
  { close := 0, volume := 1000, high := 1, low := 0, open_ := 1,
    date := "2024-01-02" }

/-- A zero-range (flat) bar, `high = low`. -/
def barFlat : EodData :=
  { close := 100, volume := 1000, high := 100, low := 100, open_ := 100,
    date := "2024-01-02" }

/-- A strictly increasing 15-close history: zero average loss, positive
average gain. -/
def histUp : List ℚ :=
  [100, 101, 102, 103, 104, 105, 106, 107, 108, 109, 110, 111, 112, 113, 114]

/-- A provider for a two-symbol universe: symbol `"AAA"` gets usable
data that produces no signal (bearish candle), symbol `"BBB"` has a
failing provider call (no bar, no history). -/
def provider_c2 (s : String) : Option EodData × Option (List ℚ) :=
  if s = "AAA" then (some barBear, some histA) else (none, none)

/-! ## Helper lemmas -/

/-- The average gain is a mean of non-negative terms. -/
lemma avg_gains_nonneg (closes : List ℚ) (window : ℕ) :
    0 ≤ avg_gains closes window := by
  unfold avg_gains rollingMeanLast
  refine div_nonneg (List.sum_nonneg ?_) (Nat.cast_nonneg window)
  intro x hx
  have hx' : x ∈ gains_of (rsi_deltas closes) := List.drop_subset _ _ hx
  obtain ⟨d, -, rfl⟩ := List.mem_map.mp hx'
  split_ifs with h
  · exact h.le
  · exact le_refl 0

/-- Characterization of the evaluator on usable data: a signal is
emitted exactly when the four-condition gate holds (with a defined,
non-NaN RSI) and the clamped confidence clears `min_confidence`. -/
lemma analyze_isSome_iff (params : StrategyParams) (base_volumes_fn : String → ℚ)
    (symbol : String) (eod : EodData) (closes : List ℚ)
    (hclose : 0 < eod.close) (hlen : 15 ≤ closes.length) :
    (analyze_elite_signal params base_volumes_fn symbol (some eod)
        (some closes)).isSome = true ↔
      ∃ r, calculate_rsi closes 14 = some r ∧ r < params.rsi_oversold ∧
        params.volume_surge < volume_ratio eod.volume (base_volumes_fn symbol) ∧
        eod.open_ < eod.close ∧ 3/5 < price_strength eod ∧
        params.min_confidence ≤ confidence_score params r
          (volume_ratio eod.volume (base_volumes_fn symbol)) := by
  simp only [analyze_elite_signal, if_neg (not_le.mpr hclose),
    if_neg (not_lt.mpr hlen)]
  cases hr : calculate_rsi closes 14 with
  | none => simp [hr]
  | some r =>
    dsimp only
    constructor
    · intro h
      split_ifs at h with hgate hconf
      · exact ⟨r, rfl, hgate.1, hgate.2.1, hgate.2.2.1, hgate.2.2.2, hconf⟩
      · simp at h
      · simp at h
    · rintro ⟨r', hr', h1, h2, h3, h4, h5⟩
      injection hr' with h'
      subst h'
      rw [if_pos ⟨h1, h2, h3, h4⟩, if_pos h5]
      rfl

/-- The unclamped confidence is monotone in the RSI threshold. -/
lemma confidence_raw_mono (p q : StrategyParams)
    (h : p.rsi_oversold ≤ q.rsi_oversold) (r vr : ℚ) :
    confidence_raw p r vr ≤ confidence_raw q r vr := by
  simp only [confidence_raw]
  linarith

/-- The clamped confidence is monotone in the RSI threshold. -/
lemma confidence_score_mono (p q : StrategyParams)
    (h : p.rsi_oversold ≤ q.rsi_oversold) (r vr : ℚ) :
    confidence_score p r vr ≤ confidence_score q r vr := by
  unfold confidence_score
  exact min_le_min (max_le_max (confidence_raw_mono p q h r vr) le_rfl) le_rfl

/-- Membership in a stable insertion. -/
lemma mem_insert_by_confidence {x s : Signal} :
    ∀ {l : List Signal}, x ∈ insert_by_confidence s l ↔ x = s ∨ x ∈ l := by
  intro l
  induction l with
  | nil => simp [insert_by_confidence]
  | cons t ts ih =>
    unfold insert_by_confidence
    split_ifs with h
    · simp [List.mem_cons]
    · simp only [List.mem_cons, ih]
      tauto

/-- Inserting into a descending-by-confidence list keeps it descending. -/
lemma pairwise_insert_by_confidence {s : Signal} {l : List Signal}
    (h : l.Pairwise (fun a b => b.confidence ≤ a.confidence)) :
    (insert_by_confidence s l).Pairwise
      (fun a b => b.confidence ≤ a.confidence) := by
  induction l with
  | nil => simp [insert_by_confidence]
  | cons t ts ih =>
    rw [List.pairwise_cons] at h
    obtain ⟨ht, hts⟩ := h
    unfold insert_by_confidence
    split_ifs with hc
    · refine List.Pairwise.cons ?_ (List.Pairwise.cons ht hts)
      intro x hx
      rcases List.mem_cons.mp hx with rfl | hx'
      · exact hc
      · exact le_trans (ht x hx') hc
    · refine List.Pairwise.cons ?_ (ih hts)
      intro x hx
      rcases mem_insert_by_confidence.mp hx with rfl | hx'
      · exact le_of_not_le hc
      · exact ht x hx'

/-- The sorted signal list is descending by confidence. -/
lemma sortSignals_pairwise (l : List Signal) :
    (sortSignals l).Pairwise (fun a b => b.confidence ≤ a.confidence) := by
  induction l with
  | nil => exact List.Pairwise.nil
  | cons x xs ih => exact pairwise_insert_by_confidence ih

/-- Stability of insertion, phrased through filtering on one confidence
value: the inserted signal lands in front of the equal-confidence block
it belongs to, and every other block is untouched. -/
lemma filter_insert_by_confidence (c : ℚ) (s : Signal) (l : List Signal) :
    (insert_by_confidence s l).filter (fun x => decide (x.confidence = c)) =
      (if s.confidence = c then [s] else []) ++
        l.filter (fun x => decide (x.confidence = c)) := by
  induction l with
  | nil =>
    by_cases hs : s.confidence = c <;>
      simp [insert_by_confidence, List.filter_cons, hs]
  | cons t ts ih =>
    by_cases hc : t.confidence ≤ s.confidence
    · simp only [insert_by_confidence, if_pos hc]
      by_cases hs : s.confidence = c <;> simp [List.filter_cons, hs]
    · simp only [insert_by_confidence, if_neg hc]
      rw [List.filter_cons, List.filter_cons, ih]
      by_cases ht : t.confidence = c
      · by_cases hs : s.confidence = c
        · exact absurd (ht.trans hs.symm).le hc
        · simp [ht, hs]
      · by_cases hs : s.confidence = c <;> simp [ht, hs]

/-- Stability of the sort: every equal-confidence block keeps its
original encounter order. -/
lemma sortSignals_filter (c : ℚ) (l : List Signal) :
    (sortSignals l).filter (fun x => decide (x.confidence = c)) =
      l.filter (fun x => decide (x.confidence = c)) := by
  induction l with
  | nil => rfl
  | cons x xs ih =>
    show (insert_by_confidence x (sortSignals xs)).filter _ = _
    rw [filter_insert_by_confidence, ih, List.filter_cons]
    by_cases hx : x.confidence = c <;> simp [hx]

/-- Inserting below every element of a list prepends it. -/
lemma insert_by_confidence_of_le (s : Signal) (l : List Signal)
    (h : ∀ x ∈ l, x.confidence ≤ s.confidence) :
    insert_by_confidence s l = s :: l := by
  cases l with
  | nil => rfl
  | cons t ts =>
    unfold insert_by_confidence
    rw [if_pos (h t (List.mem_cons_self t ts))]

/-- Sorting an already descending list is the identity. -/
lemma sortSignals_of_pairwise (l : List Signal)
    (h : l.Pairwise (fun a b => b.confidence ≤ a.confidence)) :
    sortSignals l = l := by
  induction l with
  | nil => rfl
  | cons x xs ih =>
    rw [List.pairwise_cons] at h
    obtain ⟨hx, hxs⟩ := h
    show insert_by_confidence x (sortSignals xs) = x :: xs
    rw [ih hxs]
    exact insert_by_confidence_of_le x xs hx

/-- The confidence sort is idempotent. -/
lemma sortSignals_idem (l : List Signal) :
    sortSignals (sortSignals l) = sortSignals l :=
  sortSignals_of_pairwise _ (sortSignals_pairwise l)

/-! ## Claims -/

/-- C1: On usable data (positive close, at least 15 closes of history),
the evaluator returns a signal if and only if all four gate conditions
hold — RSI(history) < rsi_oversold (with a defined RSI),
VolumeRatio > volume_surge, close > open, PriceStrength > 0.6 — and the
clamped confidence score is at least min_confidence; whenever the gate
fails or the confidence is below min_confidence the result is `none`,
not an error. -/
theorem evaluate_signal_iff_gate_and_confidence (params : StrategyParams)
    (base_volumes_fn : String → ℚ) (symbol : String) (eod : EodData)
    (closes : List ℚ) (hclose : 0 < eod.close) (hlen : 15 ≤ closes.length) :
    (analyze_elite_signal params base_volumes_fn symbol (some eod)
        (some closes)).isSome = true ↔
      ∃ r, calculate_rsi closes 14 = some r ∧ r < params.rsi_oversold ∧
        params.volume_surge < volume_ratio eod.volume (base_volumes_fn symbol) ∧
        eod.open_ < eod.close ∧ 3/5 < price_strength eod ∧
        params.min_confidence ≤ confidence_score params r
          (volume_ratio eod.volume (base_volumes_fn symbol)) :=
  analyze_isSome_iff params base_volumes_fn symbol eod closes hclose hlen

/-- Witness for C1: the scenario-A inputs satisfy the hypotheses and
every gate conjunct, so a signal is emitted. -/
theorem evaluate_signal_iff_gate_and_confidence_witness :
    (analyze_elite_signal strategy_params base_volumes "HBL.KAR" (some barA)
        (some histA)).isSome = true := by
  refine (evaluate_signal_iff_gate_and_confidence strategy_params base_volumes
      "HBL.KAR" barA histA (by norm_num [barA]) (by norm_num [histA])).mpr
    ⟨20, ?_, ?_, ?_, ?_, ?_, ?_⟩
  · norm_num [calculate_rsi, avg_gains, avg_losses, rollingMeanLast, gains_of,
      losses_of, rsi_deltas, histA]
  · norm_num [strategy_params]
  · norm_num [strategy_params, volume_ratio, base_volumes, base_volumes_table,
      barA]
  · norm_num [barA]
  · norm_num [price_strength, barA]
  · norm_num [strategy_params, confidence_score, confidence_raw, volume_ratio,
      base_volumes, base_volumes_table, barA, min_def, max_def]

/-- C4 counterexample: on a flat 15-close history the last rolling
window has zero average gain and zero average loss, so the unguarded
`0/0` makes the RSI NaN (`none`): the function does not return a value
in [0, 100] for every price sequence. -/
theorem rsi_flat_history_not_bounded :
    calculate_rsi (List.replicate 15 (100 : ℚ)) 14 = none := by
  norm_num [calculate_rsi, avg_gains, avg_losses, rollingMeanLast, gains_of,
    losses_of, rsi_deltas, List.replicate]

/-- C4 (amended): whenever the RSI is a value (not the NaN of the flat
window), it lies in [0, 100]; and with fewer than window + 1 closes it
is exactly 50. -/
theorem rsi_bounds_and_default (closes : List ℚ) (window : ℕ) (r : ℚ) :
    (calculate_rsi closes window = some r → 0 ≤ r ∧ r ≤ 100) ∧
    (closes.length < window + 1 → calculate_rsi closes window = some 50) := by
  constructor
  · intro hr
    unfold calculate_rsi at hr
    split_ifs at hr with h1 h2 h3
    · injection hr with h
      subst h
      norm_num
    · injection hr with h
      subst h
      have hg : 0 ≤ avg_gains closes window := avg_gains_nonneg closes window
      have hx : 0 ≤ avg_gains closes window / avg_losses closes window :=
        div_nonneg hg h2.le
      have hub : 100 / (1 + avg_gains closes window / avg_losses closes window)
          ≤ 100 := div_le_self (by norm_num) (by linarith)
      have hlb : 0 < 100 / (1 + avg_gains closes window / avg_losses closes window) :=
        div_pos (by norm_num) (by linarith)
      constructor <;> linarith
    · injection hr with h
      subst h
      norm_num
  · intro h
    unfold calculate_rsi
    rw [if_pos h]

/-- Witness for C4 (amended): a 3-element history yields the short-
history default 50, which is within the bounds. -/
theorem rsi_bounds_and_default_witness :
    ((0:ℚ) ≤ 50 ∧ (50:ℚ) ≤ 100) ∧
      calculate_rsi [100, 101, 102] 14 = some 50 := by
  have h := rsi_bounds_and_default [100, 101, 102] 14 50
  have h50 : calculate_rsi [100, 101, 102] 14 = some 50 := h.2 (by norm_num)
  exact ⟨h.1 h50, h50⟩

/-- C5 counterexample: a current volume of 0 with the positive baseline
50000 yields the neutral ratio 1, not 0/50000 = 0 as the claim states:
the source's guard is `base_vol > 0 and volume > 0`, not `base_vol > 0`
alone. -/
theorem volume_ratio_zero_volume_counterexample :
    volume_ratio 0 50000 = 1 ∧ ((0:ℚ) / 50000 ≠ 1) := by
  constructor
  · norm_num [volume_ratio]
  · norm_num

/-- C5 (amended): VolumeRatio equals volume / baseline when both the
baseline and the current volume are positive, and is the neutral 1
otherwise (so zero volume with a positive baseline gives 1); no upper
clamp is applied at this stage. -/
theorem volume_ratio_spec (v b : ℚ) :
    (0 < b → 0 < v → volume_ratio v b = v / b) ∧
    (¬(0 < b ∧ 0 < v) → volume_ratio v b = 1) := by
  constructor
  · intro hb hv
    unfold volume_ratio
    rw [if_pos ⟨hb, hv⟩]
  · intro h
    unfold volume_ratio
    rw [if_neg h]

/-- Witness for C5 (amended): the surge case divides, the zero-volume
case is neutral. -/
theorem volume_ratio_spec_witness :
    volume_ratio 150000 50000 = 150000 / 50000 ∧ volume_ratio 0 50000 = 1 :=
  ⟨(volume_ratio_spec 150000 50000).1 (by norm_num) (by norm_num),
   (volume_ratio_spec 0 50000).2 (by norm_num)⟩

/-- C6 counterexample: a 16-close flat history is an arithmetic
degenerate (zero average loss AND zero average gain in the rolling
window) that the source does not resolve to any explicit default: the
unguarded `0/0` division yields NaN (`none`), not a number. -/
theorem rsi_zero_gain_zero_loss_nan :
    calculate_rsi (List.replicate 16 (50 : ℚ)) 14 = none := by
  norm_num [calculate_rsi, avg_gains, avg_losses, rollingMeanLast, gains_of,
    losses_of, rsi_deltas, List.replicate]

/-- C6 (amended): the zero-range day resolves to the explicit neutral
default price_strength = 1/2, and a zero average loss with a positive
average gain resolves to the deterministic RSI = 100; but a zero
average loss together with a zero average gain yields NaN rather than
a default.  Even then, an undefined/NaN value never propagates into an
emitted Signal: a NaN RSI forces the evaluator to return `none`. -/
theorem arithmetic_degenerate_defaults :
    (∀ eod : EodData, eod.high = eod.low → price_strength eod = 1/2) ∧
    (∀ closes : List ℚ, ¬(closes.length < 15) → avg_losses closes 14 = 0 →
      0 < avg_gains closes 14 → calculate_rsi closes 14 = some 100) ∧
    (∀ (params : StrategyParams) (base_volumes_fn : String → ℚ)
      (symbol : String) (eod : EodData) (closes : List ℚ),
      calculate_rsi closes 14 = none →
      analyze_elite_signal params base_volumes_fn symbol (some eod)
        (some closes) = none) := by
  refine ⟨?_, ?_, ?_⟩
  · intro eod h
    simp [price_strength, h]
  · intro closes h1 h2 h3
    unfold calculate_rsi
    rw [if_neg h1, if_neg (by rw [h2]; exact lt_irrefl 0), if_pos h3]
  · intro params base_volumes_fn symbol eod closes hr
    simp [analyze_elite_signal, hr]

/-- Witness for C6 (amended): a flat bar, a strictly rising history,
and a flat 16-close history exercise the three conjuncts. -/
theorem arithmetic_degenerate_defaults_witness :
    price_strength barFlat = 1/2 ∧
    calculate_rsi histUp 14 = some 100 ∧
    analyze_elite_signal strategy_params base_volumes "UBL.KAR" (some barA)
      (some (List.replicate 16 (50 : ℚ))) = none := by
  obtain ⟨p1, p2, p3⟩ := arithmetic_degenerate_defaults
  refine ⟨p1 barFlat (by norm_num [barFlat]), p2 histUp (by norm_num [histUp]) ?_ ?_,
    p3 strategy_params base_volumes "UBL.KAR" barA _ ?_⟩
  · norm_num [avg_losses, rollingMeanLast, losses_of, rsi_deltas, histUp]
  · norm_num [avg_gains, rollingMeanLast, gains_of, rsi_deltas, histUp]
  · norm_num [calculate_rsi, avg_gains, avg_losses, rollingMeanLast, gains_of,
      losses_of, rsi_deltas, List.replicate]

/-- C7: the evaluator is total on every data-quality input: a missing
bar, a non-positive close, a missing history, or a short history each
return `none`, and on every input whatsoever the result is `none` or a
signal — the model is a total function, mirroring the source where
every arithmetic step on the path is guarded or caught, so no
data-quality exception can escape to the caller. -/
theorem evaluator_totality (params : StrategyParams)
    (base_volumes_fn : String → ℚ) (symbol : String) :
    (∀ historical_closes, analyze_elite_signal params base_volumes_fn symbol
        none historical_closes = none) ∧
    (∀ (eod : EodData) historical_closes, eod.close ≤ 0 →
      analyze_elite_signal params base_volumes_fn symbol (some eod)
        historical_closes = none) ∧
    (∀ eod : EodData, analyze_elite_signal params base_volumes_fn symbol
        (some eod) none = none) ∧
    (∀ (eod : EodData) (closes : List ℚ), closes.length < 15 →
      analyze_elite_signal params base_volumes_fn symbol (some eod)
        (some closes) = none) ∧
    (∀ eod_data historical_closes,
      analyze_elite_signal params base_volumes_fn symbol eod_data
          historical_closes = none ∨
        ∃ s, analyze_elite_signal params base_volumes_fn symbol eod_data
          historical_closes = some s) := by
  refine ⟨fun _ => rfl, ?_, ?_, ?_, ?_⟩
  · intro eod historical_closes h
    cases historical_closes <;> simp [analyze_elite_signal, h]
  · intro eod
    simp [analyze_elite_signal]
  · intro eod closes h
    simp [analyze_elite_signal, h]
  · intro eod_data historical_closes
    cases h : analyze_elite_signal params base_volumes_fn symbol eod_data
        historical_closes with
    | none => exact Or.inl rfl
    | some s => exact Or.inr ⟨s, rfl⟩

/-- Witness for C7: the four data-quality failure modes at concrete
inputs. -/
theorem evaluator_totality_witness :
    analyze_elite_signal strategy_params base_volumes "HBL.KAR" none
        (some histA) = none ∧
    analyze_elite_signal strategy_params base_volumes "HBL.KAR"
        (some barZero) (some histA) = none ∧
    analyze_elite_signal strategy_params base_volumes "HBL.KAR" (some barA)
        none = none ∧
    analyze_elite_signal strategy_params base_volumes "HBL.KAR" (some barA)
        (some [100, 101]) = none := by
  obtain ⟨h1, h2, h3, h4, -⟩ :=
    evaluator_totality strategy_params base_volumes "HBL.KAR"
  exact ⟨h1 (some histA), h2 barZero (some histA) (by norm_num [barZero]),
    h3 barA, h4 barA [100, 101] (by norm_num)⟩

/-- C8: with every other input held fixed, lowering the RSI oversold
threshold can only turn a signal into no-signal (if the evaluation is
`none` at threshold t, it is `none` at every t' < t), and raising the
volume-surge threshold likewise can only suppress signals. -/
theorem gate_threshold_monotonicity (params : StrategyParams)
    (base_volumes_fn : String → ℚ) (symbol : String)
    (eod_data : Option EodData) (historical_closes : Option (List ℚ)) :
    (∀ t', t' < params.rsi_oversold →
      analyze_elite_signal params base_volumes_fn symbol eod_data
          historical_closes = none →
      analyze_elite_signal { params with rsi_oversold := t' } base_volumes_fn
          symbol eod_data historical_closes = none) ∧
    (∀ v', params.volume_surge < v' →
      analyze_elite_signal params base_volumes_fn symbol eod_data
          historical_closes = none →
      analyze_elite_signal { params with volume_surge := v' } base_volumes_fn
          symbol eod_data historical_closes = none) := by
  constructor
  · intro t' ht hnone
    cases eod_data with
    | none => rfl
    | some eod =>
      by_cases hc : eod.close ≤ 0
      · cases historical_closes <;> simp [analyze_elite_signal, hc]
      · cases historical_closes with
        | none => simp [analyze_elite_signal, hc]
        | some closes =>
          by_cases hl : closes.length < 15
          · simp [analyze_elite_signal, hc, hl]
          · by_contra hne
            have hsome := Option.ne_none_iff_isSome.mp hne
            rw [analyze_isSome_iff _ _ _ _ _ (not_le.mp hc) (not_lt.mp hl)]
              at hsome
            obtain ⟨r, hr, h1, h2, h3, h4, h5⟩ := hsome
            have h1' : r < params.rsi_oversold := lt_trans h1 ht
            have h5' : params.min_confidence ≤ confidence_score params r
                (volume_ratio eod.volume (base_volumes_fn symbol)) :=
              le_trans h5 (confidence_score_mono _ _ ht.le _ _)
            have : (analyze_elite_signal params base_volumes_fn symbol
                (some eod) (some closes)).isSome = true :=
              (analyze_isSome_iff _ _ _ _ _ (not_le.mp hc) (not_lt.mp hl)).mpr
                ⟨r, hr, h1', h2, h3, h4, h5'⟩
            rw [hnone] at this
            simp at this
  · intro v' hv hnone
    cases eod_data with
    | none => rfl
    | some eod =>
      by_cases hc : eod.close ≤ 0
      · cases historical_closes <;> simp [analyze_elite_signal, hc]
      · cases historical_closes with
        | none => simp [analyze_elite_signal, hc]
        | some closes =>
          by_cases hl : closes.length < 15
          · simp [analyze_elite_signal, hc, hl]
          · by_contra hne
            have hsome := Option.ne_none_iff_isSome.mp hne
            rw [analyze_isSome_iff _ _ _ _ _ (not_le.mp hc) (not_lt.mp hl)]
              at hsome
            obtain ⟨r, hr, h1, h2, h3, h4, h5⟩ := hsome
            have h2' : params.volume_surge <
                volume_ratio eod.volume (base_volumes_fn symbol) :=
              lt_trans hv h2
            have : (analyze_elite_signal params base_volumes_fn symbol
                (some eod) (some closes)).isSome = true :=
              (analyze_isSome_iff _ _ _ _ _ (not_le.mp hc) (not_lt.mp hl)).mpr
                ⟨r, hr, h1, h2', h3, h4, h5⟩
            rw [hnone] at this
            simp at this

/-- Witness for C8: applied at a missing bar, where the evaluation is
`none` at the default parameters and stays `none` after tightening
either threshold. -/
theorem gate_threshold_monotonicity_witness :
    analyze_elite_signal { strategy_params with rsi_oversold := 20 }
        base_volumes "HBL.KAR" none (some histA) = none ∧
    analyze_elite_signal { strategy_params with volume_surge := 3 }
        base_volumes "HBL.KAR" none (some histA) = none := by
  obtain ⟨m1, m2⟩ := gate_threshold_monotonicity strategy_params base_volumes
    "HBL.KAR" none (some histA)
  exact ⟨m1 20 (by norm_num [strategy_params]) rfl,
    m2 3 (by norm_num [strategy_params]) rfl⟩

/-- C10: under the default parameters, every evaluation that passes the
four-condition gate on usable data has unclamped confidence strictly
above 7.05 = 141/20 (the gate bounds give 6.8 + 0 + 0.25 as a strict
lower bound), hence clamped confidence at least min_confidence = 7, so
the low-confidence rejection branch is unreachable and a signal is
always emitted. -/
theorem default_params_gate_implies_signal (base_volumes_fn : String → ℚ)
    (symbol : String) (eod : EodData) (closes : List ℚ) (r : ℚ)
    (hclose : 0 < eod.close) (hlen : 15 ≤ closes.length)
    (hr : calculate_rsi closes 14 = some r)
    (h1 : r < strategy_params.rsi_oversold)
    (h2 : strategy_params.volume_surge <
      volume_ratio eod.volume (base_volumes_fn symbol))
    (h3 : eod.open_ < eod.close) (h4 : 3/5 < price_strength eod) :
    (141/20 : ℚ) < confidence_raw strategy_params r
        (volume_ratio eod.volume (base_volumes_fn symbol)) ∧
      (analyze_elite_signal strategy_params base_volumes_fn symbol (some eod)
        (some closes)).isSome = true := by
  set vr := volume_ratio eod.volume (base_volumes_fn symbol) with hvr
  have h1' : r < 26 := by
    simpa [strategy_params] using h1
  have h2' : (5/2 : ℚ) < vr := by
    simpa [strategy_params] using h2
  have hmin : (5/4 : ℚ) < min (vr / 2) (5/2) :=
    lt_min (by linarith) (by norm_num)
  have hfac : (0 : ℚ) < (26 - r) / 8 * (5/2) :=
    mul_pos (div_pos (by linarith) (by norm_num)) (by norm_num)
  have hraw : (141/20 : ℚ) < confidence_raw strategy_params r vr := by
    simp only [confidence_raw, strategy_params]
    linarith
  refine ⟨hraw, ?_⟩
  have hconf : strategy_params.min_confidence ≤
      confidence_score strategy_params r vr := by
    have h7 : (7 : ℚ) ≤ max (confidence_raw strategy_params r vr) 0 :=
      le_trans (by linarith) (le_max_left _ _)
    have : (7 : ℚ) ≤ confidence_score strategy_params r vr :=
      le_min h7 (by norm_num)
    simpa [strategy_params] using this
  exact (analyze_isSome_iff strategy_params base_volumes_fn symbol eod closes
    hclose hlen).mpr ⟨r, hr, h1, h2, h3, h4, hconf⟩

/-- Witness for C10: the scenario-A inputs pass the gate and emit a
signal with unclamped confidence 9.175 > 7.05. -/
theorem default_params_gate_implies_signal_witness :
    (141/20 : ℚ) < confidence_raw strategy_params 20
        (volume_ratio barA.volume (base_volumes "HBL.KAR")) ∧
      (analyze_elite_signal strategy_params base_volumes "HBL.KAR" (some barA)
        (some histA)).isSome = true := by
  refine default_params_gate_implies_signal base_volumes "HBL.KAR" barA histA
    20 (by norm_num [barA]) (by norm_num [histA]) ?_ ?_ ?_ ?_ ?_
  · norm_num [calculate_rsi, avg_gains, avg_losses, rollingMeanLast, gains_of,
      losses_of, rsi_deltas, histA]
  · norm_num [strategy_params]
  · norm_num [strategy_params, volume_ratio, base_volumes, base_volumes_table,
      barA]
  · norm_num [barA]
  · norm_num [price_strength, barA]

/-- C9: after a full scan pass, the emitted signal collection handed to
the presentation layer is sorted by confidence in descending order; the
sort is stable (each block of equal-confidence signals keeps its
original encounter order, stated via filtering on any one confidence
value); and re-applying the sort to the sorted list is a no-op. -/
theorem scan_output_sorted_stable_idempotent
    (provider : String → Option EodData × Option (List ℚ)) :
    (elite_scan_output provider).Pairwise
        (fun a b => b.confidence ≤ a.confidence) ∧
    sortSignals (elite_scan_output provider) = elite_scan_output provider ∧
    ∀ c : ℚ, (elite_scan_output provider).filter
        (fun s => decide (s.confidence = c)) =
      (run_kse100_scan strategy_params base_volumes provider
          kse_100_symbols).1.filter (fun s => decide (s.confidence = c)) := by
  unfold elite_scan_output
  exact ⟨sortSignals_pairwise _, sortSignals_idem _,
    fun c => sortSignals_filter c _⟩

/-- C2 divergence witness: in a two-symbol universe where `"AAA"` has
usable data (positive close, 15-close history) but fails the gate
(bearish candle) and `"BBB"` has a failing provider call, the scan
continues past both symbols but reports `failed = 2`, counting the
successfully evaluated no-signal symbol as a failure, where the claim
(and the source's own `"no data"` / `"successful"` labels) require
`failed = 1`. -/
theorem scan_failure_count_divergence :
    run_kse100_scan strategy_params (fun _ => 25000) provider_c2
      ["AAA", "BBB"] = ([], 0, 2) := by
  have hA : provider_c2 "AAA" = (some barBear, some histA) := by
    simp [provider_c2]
  have hB : provider_c2 "BBB" = (none, none) := by
    simp [provider_c2]
  norm_num [run_kse100_scan, scan_step, hA, hB, analyze_elite_signal,
    calculate_rsi, avg_gains, avg_losses, rollingMeanLast, gains_of,
    losses_of, rsi_deltas, histA, barBear, volume_ratio, price_strength,
    bullish_candle, confidence_score, confidence_raw, strategy_params]

/-- C3 counterexample: on the scenario-A inputs the emitted signal
stores `stop_loss = round(103 * 0.992, 2) = round(102.176, 2) = 102.18`,
not 102.19 as the claim states. -/
theorem scenario_a_stop_loss_counterexample :
    (analyze_elite_signal strategy_params base_volumes "HBL.KAR" (some barA)
        (some histA)).map Signal.stop_loss = some (10218/100) ∧
      ((10218 : ℚ)/100 ≠ 10219/100) := by
  constructor
  · norm_num [analyze_elite_signal, calculate_rsi, avg_gains, avg_losses,
      rollingMeanLast, gains_of, losses_of, rsi_deltas, histA, barA,
      volume_ratio, base_volumes, base_volumes_table, price_strength,
      bullish_candle, confidence_score, confidence_raw, strategy_params,
      roundTo, round_eq]
  · norm_num

/-- C3 (amended): on the scenario-A bar with baseline 50000 and the
15-close RSI-20 history, a signal is emitted whose stored volume_ratio
is 3.0, stored confidence is 9.2 ≥ 7.0, stored target is
round(103 * 1.028, 2) = 105.88 and stored stop_loss is
round(103 * 0.992, 2) = 102.18. -/
theorem scenario_a_signal_values :
    (analyze_elite_signal strategy_params base_volumes "HBL.KAR" (some barA)
        (some histA)).map Signal.volume_ratio = some 3 ∧
    (analyze_elite_signal strategy_params base_volumes "HBL.KAR" (some barA)
        (some histA)).map Signal.confidence = some (92/10) ∧
    ((7 : ℚ) ≤ 92/10) ∧
    (analyze_elite_signal strategy_params base_volumes "HBL.KAR" (some barA)
        (some histA)).map Signal.target = some (10588/100) ∧
    (analyze_elite_signal strategy_params base_volumes "HBL.KAR" (some barA)
        (some histA)).map Signal.stop_loss = some (10218/100) := by
  refine ⟨?_, ?_, by norm_num, ?_, ?_⟩ <;>
    norm_num [analyze_elite_signal, calculate_rsi, avg_gains, avg_losses,
      rollingMeanLast, gains_of, losses_of, rsi_deltas, histA, barA,
      volume_ratio, base_volumes, base_volumes_table, price_strength,
      bullish_candle, confidence_score, confidence_raw, strategy_params,
      roundTo, round_eq]
